import Mathlib

set_option maxRecDepth 8000

/-!
# Verification of the recommend-bot workflow core

Shallow embedding of the DB-backed revision of `src/index.js` (the revision
containing the SQLite tables `bg_checks`, `observations`, `message_refs`, the
15-minute ephemeral stash, and the `bg:*` / `obs:*` interaction handlers).

Modelling conventions:
* SQLite tables are association lists keyed by their primary keys; the SQL
  upserts (`ON CONFLICT ... DO UPDATE`) are translated clause by clause.
* The interaction handlers run on a single-threaded event loop; a handler's
  synchronous section (everything up to its first `await`) executes atomically.
  All guard-then-write sequences of the background-check and observation
  handlers are synchronous, so each such section is one atomic step here.
  The polls-mirror block, however, runs *after* an `await`
  (`editAllObsMessagesFromDb`), so the observation-submit handler is also
  given a two-phase presentation (`obsPhase1` / `obsPhase2`) that exposes the
  interleaving point.
* `Date.now()` is an explicit `now : Nat` argument (milliseconds);
  `setTimeout`-based stash expiry is modelled by visibility: an entry is live
  strictly before its `expiresAt`, and any access at or after `expiresAt`
  behaves as if the cleanup timer has fired.
* Message sending/editing (Discord) is external; a freshly assigned message id
  is passed in as an argument where the code reads `sentMessage.id`.
-/

namespace RecommendBot

/-! ## Association-list primitives (SQLite rows / JS `Map` entries) -/

/-- Lookup of the value stored at key `k` (first matching entry). -/
def alookup {κ ν : Type} [DecidableEq κ] : List (κ × ν) → κ → Option ν
  | [], _ => none
  | (k', v) :: t, k => if k' = k then some v else alookup t k

/-- Insert-or-replace at key `k` (JS `Map.set`, SQL upsert result row). -/
def aset {κ ν : Type} [DecidableEq κ] : List (κ × ν) → κ → ν → List (κ × ν)
  | [], k, v => [(k, v)]
  | (k', v') :: t, k, v => if k' = k then (k, v) :: t else (k', v') :: aset t k v

/-- Remove every entry at key `k` (JS `Map.delete`). -/
def aremove {κ ν : Type} [DecidableEq κ] (l : List (κ × ν)) (k : κ) : List (κ × ν) :=
  l.filter (fun p => decide (¬ (p.1 = k)))

/-! ## Data model: the SQLite tables -/

/-- A row of `bg_checks`: `status TEXT` (`'PASS' | 'FAIL' | NULL`),
`selected_json` (decoded), `updatedAt`. -/
structure BgRow where
  status : Option String
  selected : List String
  updatedAt : Nat
deriving DecidableEq, Repr

/-- A row of `observations` (without its key `(messageId, idx)`). -/
structure ObsRow where
  username : Option String
  date : String
  notes : String
  issues : String
  byUserId : String
  createdAt : Nat
deriving DecidableEq, Repr

/-- A row of `message_refs` (without its `originMessageId` component). -/
structure MsgRef where
  channelId : String
  messageId : String
deriving DecidableEq, Repr

/-- The persistent store: the three SQLite tables of `index.js`. -/
structure Db where
  bgChecks : List (String × BgRow)
  observations : List ((String × Nat) × ObsRow)
  messageRefs : List (String × MsgRef)
deriving DecidableEq, Repr

def emptyDb : Db := ⟨[], [], []⟩

/-! ## Store functions (translated from `index.js`) -/

/-- `getBg(messageId)`: the row, if any (the code's `|| {}` becomes `none`). -/
def getBg (db : Db) (messageId : String) : Option BgRow :=
  alookup db.bgChecks messageId

/-- The persisted `status` column for an origin (`none` = SQL `NULL` = unset). -/
def bgStatusOf (db : Db) (messageId : String) : Option String :=
  (getBg db messageId).bind BgRow.status

/-- The persisted selection for an origin, decoded from `selected_json`. -/
def bgSelectedOf (db : Db) (messageId : String) : Option (List String) :=
  (getBg db messageId).map BgRow.selected

/-- `saveBgSelection(messageId, values)`:
`INSERT ... VALUES (?, NULL, ?, ?) ON CONFLICT(messageId) DO UPDATE SET
selected_json=excluded.selected_json, updatedAt=excluded.updatedAt`. -/
def saveBgSelection (db : Db) (messageId : String) (values : List String) (now : Nat) : Db :=
  let row : BgRow :=
    match alookup db.bgChecks messageId with
    | some old => { old with selected := values, updatedAt := now }
    | none => { status := none, selected := values, updatedAt := now }
  { db with bgChecks := aset db.bgChecks messageId row }

/-- `setBgStatus(messageId, status)`:
`INSERT ... VALUES (?, ?, COALESCE((SELECT selected_json ...), '[]'), ?)
ON CONFLICT(messageId) DO UPDATE SET status=excluded.status,
updatedAt=excluded.updatedAt` — on conflict only `status` and `updatedAt`
change; a fresh insert gets the empty selection. -/
def setBgStatus (db : Db) (messageId : String) (status : String) (now : Nat) : Db :=
  let row : BgRow :=
    match alookup db.bgChecks messageId with
    | some old => { old with status := some status, updatedAt := now }
    | none => { status := some status, selected := [], updatedAt := now }
  { db with bgChecks := aset db.bgChecks messageId row }

/-- `getObservation(messageId, idx)`. -/
def getObservation (db : Db) (messageId : String) (idx : Nat) : Option ObsRow :=
  alookup db.observations (messageId, idx)

/-- The non-key content of an observation insert. -/
structure ObsData where
  username : Option String
  date : String
  notes : String
  issues : String
  byUserId : String
deriving DecidableEq, Repr

/-- `saveObservation(messageId, idx, data)`: upsert; on conflict every content
column is overwritten but `createdAt` is kept. -/
def saveObservation (db : Db) (messageId : String) (idx : Nat) (d : ObsData) (now : Nat) : Db :=
  let row : ObsRow :=
    match alookup db.observations (messageId, idx) with
    | some old =>
        { username := d.username, date := d.date, notes := d.notes,
          issues := d.issues, byUserId := d.byUserId, createdAt := old.createdAt }
    | none =>
        { username := d.username, date := d.date, notes := d.notes,
          issues := d.issues, byUserId := d.byUserId, createdAt := now }
  { db with observations := aset db.observations (messageId, idx) row }

/-- `SELECT COUNT(*) FROM observations WHERE messageId=?`. -/
def obsCountFor (db : Db) (messageId : String) : Nat :=
  (db.observations.filter (fun p => decide (p.1.1 = messageId))).length

/-- `haveAllThree(messageId)`: at least three rows for the origin. -/
def haveAllThree (db : Db) (messageId : String) : Bool :=
  decide (3 ≤ obsCountFor db messageId)

/-- `addMsgRef(originMessageId, channelId, messageId)`: `INSERT OR IGNORE`
keyed on `(originMessageId, messageId)`. -/
def addMsgRef (db : Db) (origin channelId messageId : String) : Db :=
  if db.messageRefs.any (fun p => p.1 == origin && p.2.messageId == messageId) then db
  else { db with messageRefs := db.messageRefs ++ [(origin, ⟨channelId, messageId⟩)] }

/-- `getMsgRefs(originMessageId)`. -/
def getMsgRefs (db : Db) (origin : String) : List MsgRef :=
  (db.messageRefs.filter (fun p => p.1 == origin)).map Prod.snd

/-! ## Ephemeral stash (`pendingProof`, 15-minute TTL)

The JS `Map` plus its per-entry `setTimeout` cleanup is modelled by storing
`expiresAt` and treating an entry as visible only strictly before it; an
access at or after `expiresAt` behaves as if the deferred cleanup has already
deleted the entry. -/

/-- `STASH_TTL_MS = 15 * 60_000`. -/
def STASH_TTL_MS : Nat := 15 * 60000

/-- The payload stored by `/recommend` plus the expiry bookkeeping
(the `timer` handle itself carries no observable state beyond `expiresAt`). -/
structure StashEntry where
  fileName : String
  url : String
  userId : String
  createdAt : Nat
  expiresAt : Nat
deriving DecidableEq, Repr

def Stash : Type := List (String × StashEntry)

/-- What `pendingProof.get(token)` yields at time `now`: the entry if present
and its cleanup timer has not fired. -/
def getLive (stash : Stash) (token : String) (now : Nat) : Option StashEntry :=
  match alookup stash token with
  | some e => if now < e.expiresAt then some e else none
  | none => none

/-- `setPending(token, data)`: create/overwrite, arming a full-TTL cleanup. -/
def setPending (stash : Stash) (token fileName url userId : String) (now : Nat) : Stash :=
  aset stash token
    { fileName := fileName, url := url, userId := userId,
      createdAt := now, expiresAt := now + STASH_TTL_MS }

/-- `refreshPending(token)`: `null` on a missing/expired entry, otherwise the
entry with its timer reset to a full TTL window (payload untouched). -/
def refreshPending (stash : Stash) (token : String) (now : Nat) :
    Option StashEntry × Stash :=
  match getLive stash token now with
  | none => (none, stash)
  | some e =>
      let e' := { e with expiresAt := now + STASH_TTL_MS }
      (some e', aset stash token e')

/-- `consumePending(token)`: atomic get-and-delete; `null` when missing or
already expired. -/
def consumePending (stash : Stash) (token : String) (now : Nat) :
    Option StashEntry × Stash :=
  match getLive stash token now with
  | none => (none, stash)
  | some e => (some e, aremove stash token)

/-! ## Recommendation handlers (the parts the claims touch) -/

/-- Outcome of the `recommend:continue` button handler. -/
inductive ContinueOutcome
  | sessionExpired
  | modalShown
deriving DecidableEq, Repr

/-- `recommend:continue:<token>` handler: refresh the TTL, then reject with
the session-expired message unless the entry exists and is owned by the
clicking user; otherwise show the recommendation modal. -/
def recommendContinue (stash : Stash) (token userId : String) (now : Nat) :
    ContinueOutcome × Stash :=
  let r := refreshPending stash token now
  match r.1 with
  | none => (.sessionExpired, r.2)
  | some e =>
      if e.userId ≠ userId then (.sessionExpired, r.2)
      else (.modalShown, r.2)

/-- Outcome of the `recommend_modal` submit handler. `posted` abstracts the
successful path (embed built and sent to the recommendation channel). -/
inductive SubmitOutcome
  | sessionExpired
  | posted
deriving DecidableEq, Repr

/-- `recommend_modal:<token>` submit handler: consume the stash, then reject
with the session-expired message unless the entry existed and is owned by the
submitting user; otherwise the recommendation is posted. -/
def recommendModalSubmit (stash : Stash) (token userId : String) (now : Nat) :
    SubmitOutcome × Stash :=
  let r := consumePending stash token now
  match r.1 with
  | none => (.sessionExpired, r.2)
  | some e =>
      if e.userId ≠ userId then (.sessionExpired, r.2)
      else (.posted, r.2)

/-! ## Background-check handlers -/

/-- A button of the background-check actions row. -/
inductive BgBtn
  | pass
  | decline
  | cancel
deriving DecidableEq, Repr

/-- `buildBgActionsRow(originMessageId, selCount)`: Pass+Cancel exactly when
all five items are selected, otherwise Decline+Cancel. (The origin id only
feeds the buttons' custom ids.) -/
def buildBgActionsRow (selCount : Nat) : List BgBtn :=
  if selCount = 5 then [.pass, .cancel] else [.decline, .cancel]

/-- JS `String.prototype.toUpperCase` restricted to the ASCII range the
status words live in (character-wise uppercase). -/
def jsToUpper (s : String) : String := ⟨s.data.map Char.toUpper⟩

/-- JS `String.prototype.trim`: strip whitespace from both ends. -/
def jsTrim (s : String) : String :=
  ⟨((s.data.dropWhile Char.isWhitespace).reverse.dropWhile Char.isWhitespace).reverse⟩

/-- JS `.slice(0, n)` on a string: its first `n` characters. -/
def jsSlice (s : String) (n : Nat) : String := ⟨s.data.take n⟩

/-- `isBgFinalized(originMessageId)`:
`(row?.status || '').toUpperCase()` is `'PASS'` or `'FAIL'`
(JS `||` maps a missing row or `NULL` status to `''`). -/
def isBgFinalized (db : Db) (origin : String) : Bool :=
  (jsToUpper ((bgStatusOf db origin).getD "") == "PASS") ||
  (jsToUpper ((bgStatusOf db origin).getD "") == "FAIL")

/-- Outcome of the `bg:menu` select handler. -/
inductive BgMenuOutcome
  | alreadyFinalized
  | selectionSaved (count : Nat) (row : List BgBtn)
deriving DecidableEq, Repr

/-- `bg:menu:<origin>` handler: blocked once finalized; otherwise the
selection overwrites the stored one and the actions row for the new count is
shown. -/
def bgMenu (db : Db) (origin : String) (values : List String) (now : Nat) :
    BgMenuOutcome × Db :=
  if isBgFinalized db origin then (.alreadyFinalized, db)
  else
    (.selectionSaved values.length (buildBgActionsRow values.length),
     saveBgSelection db origin values now)

/-- Outcome of the `bg:pass` / `bg:decline` finalize handler. -/
inductive BgFinalizeOutcome
  | alreadyFinalized
  | recorded (statusWord : String)
deriving DecidableEq, Repr

/-- `bg:pass:<origin>` / `bg:decline:<origin>` handler (first-wins submit):
the guard and `setBgStatus` run in one synchronous section, so the step is
atomic. The subsequent message edit is external rendering. -/
def bgFinalize (db : Db) (origin : String) (isPass : Bool) (now : Nat) :
    BgFinalizeOutcome × Db :=
  if isBgFinalized db origin then (.alreadyFinalized, db)
  else
    let statusWord := if isPass then "PASS" else "FAIL"
    (.recorded statusWord, setBgStatus db origin statusWord now)

/-- Any background-check mutation action (with its target origin). -/
inductive BgAct
  | menu (origin : String) (values : List String) (now : Nat)
  | finalize (origin : String) (isPass : Bool) (now : Nat)

/-- The store after one background-check action. -/
def bgStep (db : Db) : BgAct → Db
  | .menu o v t => (bgMenu db o v t).2
  | .finalize o p t => (bgFinalize db o p t).2

/-- The store after a sequence of background-check actions. -/
def runBg (db : Db) (acts : List BgAct) : Db :=
  acts.foldl bgStep db

/-! ## Observation handlers -/

/-- Outcome of the `obs:start` button handler: an already-recorded slot is
redirected to a read-only view, an empty slot opens the entry modal. -/
inductive ObsStartOutcome
  | view (row : ObsRow)
  | showModal
deriving DecidableEq, Repr

/-- `obs:start:<origin>:<idx>` handler (no store mutation). -/
def obsStart (db : Db) (origin : String) (idx : Nat) : ObsStartOutcome :=
  match getObservation db origin idx with
  | some row => .view row
  | none => .showModal

/-- Outcome of the `obs:modal` submit handler. `recorded mirrored` reports
whether this submit also created and registered the polls mirror. -/
inductive ObsOutcome
  | alreadyRecorded (authorId : String)
  | raceLost
  | recorded (mirrored : Bool)
deriving DecidableEq, Repr

/-- `obs:modal:<origin>:<idx>` submit handler, run to completion.
`today` stands for the `new Date()...` fallback string, `pollsChannelId` for
`RECRUITMENT_POLLS_CHANNEL_ID`, and `pollsMsgId` for the id Discord assigns
to the mirror message if one is sent (fetches and sends are assumed to
succeed; a failed send only drops the registration, it never adds one). -/
def obsSubmit (db : Db) (pollsChannelId : Option String) (origin : String) (idx : Nat)
    (dateInput notesInput issuesInput today userId : String) (now : Nat)
    (pollsMsgId : String) : ObsOutcome × Db :=
  match getObservation db origin idx with
  | some existing => (.alreadyRecorded existing.byUserId, db)
  | none =>
      let date := if jsTrim dateInput = "" then today else jsTrim dateInput
      let notes := jsSlice (jsTrim notesInput) 1024
      let issues := jsSlice (jsTrim issuesInput) 1024
      let db₁ := saveObservation db origin idx
        { username := none, date := date, notes := notes, issues := issues,
          byUserId := userId } now
      match getObservation db₁ origin idx with
      | none => (.raceLost, db₁)
      | some r =>
          if r.byUserId ≠ userId then (.raceLost, db₁)
          else
            match pollsChannelId with
            | some ch =>
                if haveAllThree db₁ origin then
                  (.recorded true, addMsgRef db₁ origin ch pollsMsgId)
                else (.recorded false, db₁)
            | none => (.recorded false, db₁)

/-! ## Event-loop interleaving of `obs:modal` submits

The submit handler's guard, field reads, `saveObservation`, and post-save
re-read are synchronous, but `await editAllObsMessagesFromDb(...)` suspends
the handler *before* the `haveAllThree` check and the polls-mirror block.
On the Node event loop, several in-flight submits may therefore all commit
their rows first and only then, one after another, run their mirror blocks.
The model below splits the handler at that `await`: phase 1 is the
synchronous section, phase 2 is the continuation. A schedule is a list of
task indices; running task `i` executes its next pending phase atomically,
exactly as the event loop would. -/

/-- The inputs of one in-flight `obs:modal` submit. -/
structure ObsCall where
  origin : String
  idx : Nat
  dateInput : String
  notesInput : String
  issuesInput : String
  today : String
  userId : String
  now : Nat
  pollsMsgId : String
deriving DecidableEq, Repr

/-- Progress of one in-flight submit through the handler. -/
inductive ObsPhase
  | start
  | atEditAwait
  | done
deriving DecidableEq, Repr

/-- The event-loop state: the store, every in-flight submit with its
progress, and how many polls mirrors have been sent and registered. -/
structure ObsSys where
  db : Db
  tasks : List (ObsCall × ObsPhase)
  mirrors : Nat
deriving Repr

/-- Run the next pending phase of task `i` (a no-op on a finished task or an
out-of-range index). Phase 1 is the handler's synchronous section up to the
`await`; phase 2 is the `haveAllThree` check plus the mirror send and
`addMsgRef`. -/
def obsSysStep (pollsChannelId : Option String) (s : ObsSys) (i : Nat) : ObsSys :=
  match s.tasks.get? i with
  | none => s
  | some (c, ph) =>
      match ph with
      | .done => s
      | .start =>
          match getObservation s.db c.origin c.idx with
          | some _ =>
              { s with tasks := s.tasks.set i (c, .done) }
          | none =>
              let date := if jsTrim c.dateInput = "" then c.today else jsTrim c.dateInput
              let db₁ := saveObservation s.db c.origin c.idx
                { username := none, date := date, notes := jsSlice (jsTrim c.notesInput) 1024,
                  issues := jsSlice (jsTrim c.issuesInput) 1024, byUserId := c.userId } c.now
              match getObservation db₁ c.origin c.idx with
              | none => { s with db := db₁, tasks := s.tasks.set i (c, .done) }
              | some r =>
                  if r.byUserId ≠ c.userId then
                    { s with db := db₁, tasks := s.tasks.set i (c, .done) }
                  else
                    { s with db := db₁, tasks := s.tasks.set i (c, .atEditAwait) }
      | .atEditAwait =>
          match pollsChannelId with
          | some ch =>
              if haveAllThree s.db c.origin then
                { db := addMsgRef s.db c.origin ch c.pollsMsgId,
                  tasks := s.tasks.set i (c, .done),
                  mirrors := s.mirrors + 1 }
              else { s with tasks := s.tasks.set i (c, .done) }
          | none => { s with tasks := s.tasks.set i (c, .done) }

/-- Run a whole schedule of event-loop turns. -/
def runObsSys (pollsChannelId : Option String) (s : ObsSys) (sched : List Nat) : ObsSys :=
  sched.foldl (obsSysStep pollsChannelId) s

/-! ## Concrete states and inputs used by the closed theorems below -/

/-- A stash holding exactly the entry created by `/recommend` at time 0
(payload `proof.png` owned by `alice`). -/
def stashW : Stash := setPending [] "tok" "proof.png" "https://cdn/p.png" "alice" 0

/-- The entry `stashW` holds. -/
def entryW : StashEntry :=
  { fileName := "proof.png", url := "https://cdn/p.png", userId := "alice",
    createdAt := 0, expiresAt := STASH_TTL_MS }

/-- A store whose origin `origin1` has a finalized FAIL background check and
no observation rows. -/
def dbFailW : Db :=
  { bgChecks := [("origin1", { status := some "FAIL", selected := ["age"], updatedAt := 0 })],
    observations := [],
    messageRefs := [("origin1", { channelId := "recs", messageId := "origin1" })] }

/-- A store whose origin `origin1` has a finalized PASS background check. -/
def dbPassW : Db :=
  { bgChecks :=
      [("origin1",
        { status := some "PASS", selected := ["age", "safechat", "seen", "comms", "history"],
          updatedAt := 0 })],
    observations := [],
    messageRefs := [("origin1", { channelId := "recs", messageId := "origin1" })] }

/-- Three concurrent `obs:modal` submits, one per slot, by three reviewers. -/
def obsCallA : ObsCall := ⟨"origin1", 1, "01/01/2025", "notes one", "", "01/04/2025", "u1", 10, "poll1"⟩

/-- Slot-2 submit by reviewer `u2`. -/
def obsCallB : ObsCall := ⟨"origin1", 2, "01/02/2025", "notes two", "", "01/04/2025", "u2", 20, "poll2"⟩

/-- Slot-3 submit by reviewer `u3`. -/
def obsCallC : ObsCall := ⟨"origin1", 3, "01/03/2025", "notes three", "", "01/04/2025", "u3", 30, "poll3"⟩

/-- Event-loop state with the three submits in flight over an empty store. -/
def obsSysW : ObsSys :=
  ⟨emptyDb, [(obsCallA, .start), (obsCallB, .start), (obsCallC, .start)], 0⟩

/-- The adversarial schedule: slot 1 runs to completion; slots 2 and 3 both
run their synchronous guard+save sections; then both resume after their
`await` and run the mirror block. Each step is one event-loop turn. -/
def obsSchedW : List Nat := [0, 0, 1, 2, 1, 2]

end RecommendBot

/-! # Theorems -/

namespace RecommendBot

/-! ## Association-list lemmas -/

theorem alookup_aset_self {κ ν : Type} [DecidableEq κ] (l : List (κ × ν)) (k : κ) (v : ν) :
    alookup (aset l k v) k = some v := by
  induction l with
  | nil => simp [aset, alookup]
  | cons p t ih =>
    obtain ⟨k', v'⟩ := p
    by_cases h : k' = k
    · simp [aset, h, alookup]
    · simp [aset, h, alookup, ih]

theorem alookup_aset_ne {κ ν : Type} [DecidableEq κ] (l : List (κ × ν)) (k k' : κ) (v : ν)
    (h : k' ≠ k) : alookup (aset l k v) k' = alookup l k' := by
  induction l with
  | nil => simp [aset, alookup, Ne.symm h]
  | cons p t ih =>
    obtain ⟨k₀, v₀⟩ := p
    by_cases h₀ : k₀ = k
    · subst h₀
      simp [aset, alookup, Ne.symm h]
    · simp [aset, h₀, alookup, ih]

theorem alookup_aremove_self {κ ν : Type} [DecidableEq κ] (l : List (κ × ν)) (k : κ) :
    alookup (aremove l k) k = none := by
  induction l with
  | nil => simp [aremove, alookup]
  | cons p t ih =>
    obtain ⟨k', v'⟩ := p
    by_cases h : k' = k
    · simpa [aremove, h] using ih
    · simpa [aremove, h, alookup] using ih

/-! ## Background-check store lemmas -/

theorem isBgFinalized_of_status (db : Db) (o : String)
    (h : bgStatusOf db o = some "PASS" ∨ bgStatusOf db o = some "FAIL") :
    isBgFinalized db o = true := by
  unfold isBgFinalized
  rcases h with h | h <;> rw [h] <;> decide

theorem isBgFinalized_of_unset (db : Db) (o : String)
    (h : bgStatusOf db o = none) : isBgFinalized db o = false := by
  unfold isBgFinalized
  rw [h]
  decide

theorem getBg_setBgStatus_self (db : Db) (o status : String) (now : Nat) :
    getBg (setBgStatus db o status now) o =
      some { status := some status, selected := (bgSelectedOf db o).getD [],
             updatedAt := now } := by
  unfold getBg setBgStatus bgSelectedOf getBg
  cases h : alookup db.bgChecks o <;> simp [h, alookup_aset_self]

theorem getBg_setBgStatus_ne (db : Db) (o m status : String) (now : Nat)
    (h : m ≠ o) : getBg (setBgStatus db o status now) m = getBg db m := by
  unfold getBg setBgStatus
  cases alookup db.bgChecks o <;> simp [alookup_aset_ne _ _ _ _ h]

theorem getBg_saveBgSelection_ne (db : Db) (o m : String) (values : List String) (now : Nat)
    (h : m ≠ o) : getBg (saveBgSelection db o values now) m = getBg db m := by
  unfold getBg saveBgSelection
  cases alookup db.bgChecks o <;> simp [alookup_aset_ne _ _ _ _ h]

/-- A single background-check action never changes the row of an origin that
is already finalized (and touches no other origin's row either way). -/
theorem bgStep_frame (db : Db) (o : String) (h : isBgFinalized db o = true) (a : BgAct) :
    getBg (bgStep db a) o = getBg db o := by
  cases a with
  | menu o' v t =>
      cases ho : isBgFinalized db o' with
      | true => simp [bgStep, bgMenu, ho]
      | false =>
          have hne : o ≠ o' := by
            rintro rfl
            rw [h] at ho
            exact Bool.noConfusion ho
          simp [bgStep, bgMenu, ho, getBg_saveBgSelection_ne db o' o v t hne]
  | finalize o' p t =>
      cases ho : isBgFinalized db o' with
      | true => simp [bgStep, bgFinalize, ho]
      | false =>
          have hne : o ≠ o' := by
            rintro rfl
            rw [h] at ho
            exact Bool.noConfusion ho
          simp [bgStep, bgFinalize, ho, getBg_setBgStatus_ne db o' o _ t hne]

/-- A finalized origin's row survives any sequence of background-check
actions unchanged. -/
theorem runBg_frame (o : String) (acts : List BgAct) :
    ∀ db : Db, isBgFinalized db o = true → getBg (runBg db acts) o = getBg db o := by
  induction acts with
  | nil =>
      intro db _
      rfl
  | cons a rest ih =>
      intro db hf
      have h1 := bgStep_frame db o hf a
      have hf' : isBgFinalized (bgStep db a) o = true := by
        unfold isBgFinalized bgStatusOf at hf ⊢
        rw [h1]
        exact hf
      have h2 := ih (bgStep db a) hf'
      unfold runBg at h2 ⊢
      simp only [List.foldl_cons]
      rw [h2, h1]

/-! ## Claim theorems: background check -/

/-- **C1.** If an origin's persisted status is already PASS or FAIL, a
finalize action (`bg:pass`/`bg:decline`) is answered with the
already-finalized outcome and the store — status and selection alike — is
untouched; and starting from an unset status, of two finalize calls on the
same origin the first persists its status word and the second observes the
already-finalized outcome and changes nothing. -/
theorem bg_finalize_first_wins (db : Db) (o : String) (p₁ p₂ : Bool) (t₁ t₂ : Nat) :
    ((bgStatusOf db o = some "PASS" ∨ bgStatusOf db o = some "FAIL") →
       bgFinalize db o p₁ t₁ = (.alreadyFinalized, db)) ∧
    (bgStatusOf db o = none →
       (bgFinalize db o p₁ t₁).1 = .recorded (if p₁ then "PASS" else "FAIL") ∧
       (bgFinalize (bgFinalize db o p₁ t₁).2 o p₂ t₂).1 = .alreadyFinalized ∧
       (bgFinalize (bgFinalize db o p₁ t₁).2 o p₂ t₂).2 = (bgFinalize db o p₁ t₁).2 ∧
       bgStatusOf (bgFinalize (bgFinalize db o p₁ t₁).2 o p₂ t₂).2 o =
         some (if p₁ then "PASS" else "FAIL")) := by
  constructor
  · intro h
    simp [bgFinalize, isBgFinalized_of_status db o h]
  · intro h
    have hf : isBgFinalized db o = false := isBgFinalized_of_unset db o h
    have e₁ : bgFinalize db o p₁ t₁ =
        (.recorded (if p₁ then "PASS" else "FAIL"),
         setBgStatus db o (if p₁ then "PASS" else "FAIL") t₁) := by
      simp [bgFinalize, hf]
    have hst : bgStatusOf (setBgStatus db o (if p₁ then "PASS" else "FAIL") t₁) o =
        some (if p₁ then "PASS" else "FAIL") := by
      unfold bgStatusOf
      rw [getBg_setBgStatus_self]
      rfl
    have hf₁ : isBgFinalized (setBgStatus db o (if p₁ then "PASS" else "FAIL") t₁) o = true := by
      apply isBgFinalized_of_status
      cases p₁
      · right
        simpa using hst
      · left
        simpa using hst
    refine ⟨by rw [e₁], ?_, ?_, ?_⟩ <;> rw [e₁] <;> simp [bgFinalize, hf₁, hst]

/-- Witness for C1: a PASS record rejects a decline unchanged; from an unset
record the first finalize records PASS and the second is rejected. -/
theorem bg_finalize_first_wins_witness :
    bgFinalize dbPassW "origin1" false 5 = (.alreadyFinalized, dbPassW) ∧
    (bgFinalize emptyDb "origin1" true 1).1 = .recorded "PASS" ∧
    (bgFinalize (bgFinalize emptyDb "origin1" true 1).2 "origin1" false 2).1 =
      .alreadyFinalized := by
  have h₁ := (bg_finalize_first_wins dbPassW "origin1" false false 5 5).1 (Or.inl (by decide))
  have h₂ := (bg_finalize_first_wins emptyDb "origin1" true false 1 2).2 (by decide)
  exact ⟨h₁, h₂.1, h₂.2.1⟩

/-- **C9.** `setBgStatus` modifies only the target origin's row, and within
it only the status (and timestamp): the stored selection afterwards equals
the one stored before (the empty list for a fresh row), and every other
origin's row is unchanged. -/
theorem setBgStatus_frame (db : Db) (o status : String) (now : Nat) :
    bgSelectedOf (setBgStatus db o status now) o = some ((bgSelectedOf db o).getD []) ∧
    bgStatusOf (setBgStatus db o status now) o = some status ∧
    (∀ m, m ≠ o → getBg (setBgStatus db o status now) m = getBg db m) := by
  refine ⟨?_, ?_, fun m hm => getBg_setBgStatus_ne db o m status now hm⟩
  · unfold bgSelectedOf
    rw [getBg_setBgStatus_self]
    rfl
  · unfold bgStatusOf
    rw [getBg_setBgStatus_self]
    rfl

/-- Witness for C9: finalizing `origin1` keeps its five-item selection and
leaves another origin's (absent) row absent. -/
theorem setBgStatus_frame_witness :
    bgSelectedOf (setBgStatus dbPassW "origin1" "FAIL" 9) "origin1" =
      some ((bgSelectedOf dbPassW "origin1").getD []) ∧
    getBg (setBgStatus dbPassW "origin1" "FAIL" 9) "origin2" = getBg dbPassW "origin2" := by
  have h := setBgStatus_frame dbPassW "origin1" "FAIL" 9
  exact ⟨h.1, h.2.2 "origin2" (by decide)⟩

/-- **C3.** Once an origin's persisted status is PASS or FAIL the record is
terminal: over any later sequence of `bg:menu` and finalize actions the
stored row — selection set and status — never changes. -/
theorem bg_record_terminal (db : Db) (o : String)
    (h : bgStatusOf db o = some "PASS" ∨ bgStatusOf db o = some "FAIL")
    (acts : List BgAct) :
    getBg (runBg db acts) o = getBg db o :=
  runBg_frame o acts db (isBgFinalized_of_status db o h)

/-- Witness for C3: a finalized PASS record survives a selection update and a
decline attempt unchanged. -/
theorem bg_record_terminal_witness :
    getBg (runBg dbPassW
      [BgAct.menu "origin1" [] 7, BgAct.finalize "origin1" false 8]) "origin1" =
      getBg dbPassW "origin1" :=
  bg_record_terminal dbPassW "origin1" (Or.inl (by decide)) _

/-- **C8.** On a not-yet-finalized record, a selection update with fewer than
five items selected offers Decline and Cancel only — Pass is not offered —
while a full five-item selection offers Pass (and Cancel). -/
theorem bg_actions_policy (db : Db) (o : String) (values : List String) (t : Nat)
    (hfin : isBgFinalized db o = false) :
    (values.length < 5 →
       buildBgActionsRow values.length = [.decline, .cancel] ∧
       BgBtn.pass ∉ buildBgActionsRow values.length ∧
       (bgMenu db o values t).1 =
         .selectionSaved values.length [.decline, .cancel]) ∧
    (values.length = 5 →
       buildBgActionsRow values.length = [.pass, .cancel] ∧
       (bgMenu db o values t).1 = .selectionSaved 5 [.pass, .cancel]) := by
  constructor
  · intro hlt
    have h5 : values.length ≠ 5 := by omega
    refine ⟨by simp [buildBgActionsRow, h5], ?_, ?_⟩
    · simp [buildBgActionsRow, h5]
    · simp [bgMenu, hfin, buildBgActionsRow, h5]
  · intro heq
    refine ⟨by simp [buildBgActionsRow, heq], ?_⟩
    simp [bgMenu, hfin, buildBgActionsRow, heq]

/-- Witness for C8: with one item selected only Decline is offered; with all
five selected Pass is offered. -/
theorem bg_actions_policy_witness :
    (bgMenu emptyDb "origin1" ["age"] 3).1 =
      .selectionSaved 1 [.decline, .cancel] ∧
    (bgMenu emptyDb "origin1" ["age", "safechat", "seen", "comms", "history"] 3).1 =
      .selectionSaved 5 [.pass, .cancel] := by
  have h₁ := (bg_actions_policy emptyDb "origin1" ["age"] 3 (by decide)).1 (by decide)
  have h₂ := (bg_actions_policy emptyDb "origin1"
    ["age", "safechat", "seen", "comms", "history"] 3 (by decide)).2 (by decide)
  exact ⟨h₁.2.2, h₂.2⟩

/-! ## Observation-store lemmas -/

theorem getObservation_save_fresh (db : Db) (o : String) (i : Nat) (d : ObsData) (now : Nat)
    (h : getObservation db o i = none) :
    getObservation (saveObservation db o i d now) o i =
      some { username := d.username, date := d.date, notes := d.notes,
             issues := d.issues, byUserId := d.byUserId, createdAt := now } := by
  unfold getObservation at h ⊢
  unfold saveObservation
  rw [h]
  simp [alookup_aset_self]

theorem getObservation_addMsgRef (db : Db) (o' c m o : String) (i : Nat) :
    getObservation (addMsgRef db o' c m) o i = getObservation db o i := by
  unfold getObservation addMsgRef
  split <;> rfl

/-- What the `obs:modal` submit handler does on an empty slot: it records the
row (the guard and post-save re-read both pass) and then runs the mirror
block, which looks only at `haveAllThree` and the polls configuration. -/
theorem obsSubmit_fresh (db : Db) (pollsCh : Option String) (o : String) (i : Nat)
    (dI nI iI today u : String) (now : Nat) (pm : String)
    (hempty : getObservation db o i = none) :
    obsSubmit db pollsCh o i dI nI iI today u now pm =
      (let date := if jsTrim dI = "" then today else jsTrim dI
       let db₁ := saveObservation db o i
         { username := none, date := date, notes := jsSlice (jsTrim nI) 1024,
           issues := jsSlice (jsTrim iI) 1024, byUserId := u } now
       match pollsCh with
       | some ch =>
           if haveAllThree db₁ o then (.recorded true, addMsgRef db₁ o ch pm)
           else (.recorded false, db₁)
       | none => (.recorded false, db₁)) := by
  unfold obsSubmit
  rw [hempty]
  simp only []
  rw [getObservation_save_fresh db o i _ now hempty]
  simp

/-! ## Claim theorems: observations -/

/-- **C2.** A submit (`obs:modal`) on a slot that already has a row fails with
the slot-already-recorded outcome naming the existing row's author, and the
store is bit-for-bit unchanged: the stored row (notes, issues, date, author)
survives, the new content is discarded entirely, and any later view of the
slot still reads the old row. -/
theorem obs_submit_first_wins (db : Db) (pollsCh : Option String) (o : String) (i : Nat)
    (r : ObsRow) (dI nI iI today u : String) (now : Nat) (pm : String)
    (h : getObservation db o i = some r) :
    obsSubmit db pollsCh o i dI nI iI today u now pm = (.alreadyRecorded r.byUserId, db) ∧
    getObservation (obsSubmit db pollsCh o i dI nI iI today u now pm).2 o i = some r := by
  have e : obsSubmit db pollsCh o i dI nI iI today u now pm =
      (.alreadyRecorded r.byUserId, db) := by
    unfold obsSubmit
    rw [h]
  exact ⟨e, by rw [e]; exact h⟩

/-- Witness for C2: re-submitting slot 1 over an existing row is rejected
naming the original author and leaves the store unchanged. -/
theorem obs_submit_first_wins_witness :
    obsSubmit (saveObservation dbPassW "origin1" 1
        ⟨none, "01/01/2025", "first", "", "u1"⟩ 10)
      (some "polls") "origin1" 1 "01/02/2025" "second" "" "01/04/2025" "u2" 20 "pm"
      = (.alreadyRecorded "u1",
         saveObservation dbPassW "origin1" 1 ⟨none, "01/01/2025", "first", "", "u1"⟩ 10) := by
  have h := obs_submit_first_wins
    (saveObservation dbPassW "origin1" 1 ⟨none, "01/01/2025", "first", "", "u1"⟩ 10)
    (some "polls") "origin1" 1
    ⟨none, "01/01/2025", "first", "", "u1", 10⟩
    "01/02/2025" "second" "" "01/04/2025" "u2" 20 "pm" (by decide)
  exact h.1

/-- **C5 counterexample.** On an origin whose background check is finalized
FAIL (so not `Finalized(pass)`), an observation submit is *not* rejected:
the handler records the row and replies with the recorded outcome — there is
no precondition check against the background-check status anywhere in the
observation handlers. -/
theorem obs_no_precondition_check :
    bgStatusOf dbFailW "origin1" = some "FAIL" ∧
    isBgFinalized dbFailW "origin1" = true ∧
    (obsSubmit dbFailW (some "polls") "origin1" 1
        "01/01/2025" "looked great" "" "01/04/2025" "u9" 50 "pm").1
      = ObsOutcome.recorded false ∧
    (getObservation (obsSubmit dbFailW (some "polls") "origin1" 1
        "01/01/2025" "looked great" "" "01/04/2025" "u9" 50 "pm").2 "origin1" 1).isSome
      = true := by
  decide

/-- **C5 (amended).** The observation handlers never consult the
background-check status: on an origin whose status is not PASS (unset or
FAIL), `obs:start` on an empty slot still opens the entry modal and
`obs:modal` submit still records a row attributed to the submitter — the
stage-ordering precondition is enforced only by which buttons are rendered
(observation buttons are attached to the message only on `bg:pass`), not by
any handler-level rejection. -/
theorem obs_ignores_bg_status (db : Db) (pollsCh : Option String) (o : String) (i : Nat)
    (dI nI iI today u : String) (now : Nat) (pm : String)
    (hempty : getObservation db o i = none)
    (_hnotpass : bgStatusOf db o ≠ some "PASS") :
    obsStart db o i = .showModal ∧
    (∃ b, (obsSubmit db pollsCh o i dI nI iI today u now pm).1 = .recorded b) ∧
    (getObservation (obsSubmit db pollsCh o i dI nI iI today u now pm).2 o i).map
      ObsRow.byUserId = some u := by
  have hstart : obsStart db o i = .showModal := by
    unfold obsStart
    rw [hempty]
  have hsave : getObservation (saveObservation db o i
      { username := none, date := if jsTrim dI = "" then today else jsTrim dI,
        notes := jsSlice (jsTrim nI) 1024, issues := jsSlice (jsTrim iI) 1024, byUserId := u } now) o i =
      some { username := none, date := if jsTrim dI = "" then today else jsTrim dI,
             notes := jsSlice (jsTrim nI) 1024, issues := jsSlice (jsTrim iI) 1024,
             byUserId := u, createdAt := now } :=
    getObservation_save_fresh db o i
      { username := none, date := if jsTrim dI = "" then today else jsTrim dI,
        notes := jsSlice (jsTrim nI) 1024, issues := jsSlice (jsTrim iI) 1024, byUserId := u } now hempty
  rw [obsSubmit_fresh db pollsCh o i dI nI iI today u now pm hempty]
  simp only []
  refine ⟨hstart, ?_, ?_⟩
  · cases pollsCh with
    | none => exact ⟨false, rfl⟩
    | some ch =>
        by_cases h3 : haveAllThree (saveObservation db o i
          { username := none, date := if jsTrim dI = "" then today else jsTrim dI,
            notes := jsSlice (jsTrim nI) 1024, issues := jsSlice (jsTrim iI) 1024, byUserId := u } now) o
        · exact ⟨true, by simp [h3]⟩
        · exact ⟨false, by simp [h3]⟩
  · cases pollsCh with
    | none =>
        rw [hsave]
        rfl
    | some ch =>
        dsimp only
        by_cases h3 : haveAllThree (saveObservation db o i
          { username := none, date := if jsTrim dI = "" then today else jsTrim dI,
            notes := jsSlice (jsTrim nI) 1024, issues := jsSlice (jsTrim iI) 1024, byUserId := u } now) o
        · rw [if_pos h3, getObservation_addMsgRef, hsave]
          rfl
        · rw [if_neg h3, hsave]
          rfl

/-- Witness for C5 (amended): on the FAIL-finalized origin the modal is shown
and a submit records reviewer `u9`'s row. -/
theorem obs_ignores_bg_status_witness :
    obsStart dbFailW "origin1" 1 = .showModal ∧
    (∃ b, (obsSubmit dbFailW (some "polls") "origin1" 1
        "01/01/2025" "looked great" "" "01/04/2025" "u9" 50 "pm").1 = .recorded b) ∧
    (getObservation (obsSubmit dbFailW (some "polls") "origin1" 1
        "01/01/2025" "looked great" "" "01/04/2025" "u9" 50 "pm").2 "origin1" 1).map
      ObsRow.byUserId = some "u9" :=
  obs_ignores_bg_status dbFailW (some "polls") "origin1" 1
    "01/01/2025" "looked great" "" "01/04/2025" "u9" 50 "pm"
    (by decide) (by decide)

/-- **C4.** (The claim fails on the code; this closed theorem runs the code
at the failing interleaving.) Three reviewers fill slots 1, 2 and 3 once
each; slot 1's submit runs to completion, then the slot-2 and slot-3 submits
both run their synchronous guard+save sections before either resumes after
`await editAllObsMessagesFromDb(...)`. Both resumed continuations then see
`haveAllThree` true, and each sends and registers a polls mirror: two
mirrors are registered for one origin, and the second send happens even
though a mirror is already registered — the mirror block checks only
"all three rows exist and a polls channel is configured". -/
theorem obs_mirror_duplicated :
    (runObsSys (some "polls") obsSysW obsSchedW).mirrors = 2 ∧
    ((runObsSys (some "polls") obsSysW obsSchedW).db.messageRefs.filter
        (fun p => p.2.channelId == "polls")).length = 2 ∧
    (getObservation (runObsSys (some "polls") obsSysW obsSchedW).db "origin1" 1).isSome ∧
    (getObservation (runObsSys (some "polls") obsSysW obsSchedW).db "origin1" 2).isSome ∧
    (getObservation (runObsSys (some "polls") obsSysW obsSchedW).db "origin1" 3).isSome ∧
    (runObsSys (some "polls") obsSysW [0, 0, 1, 1, 2, 2]).mirrors = 1 := by
  decide

/-! ## Claim theorems: session stash -/

/-- **C6.** Consuming a live stash entry returns the stored payload and
deletes it; a second consume of the same token (at any later time) finds
nothing. -/
theorem stash_consume_once (stash : Stash) (tok : String) (e : StashEntry) (now now' : Nat)
    (h : getLive stash tok now = some e) :
    (consumePending stash tok now).1 = some e ∧
    alookup (consumePending stash tok now).2 tok = none ∧
    (consumePending (consumePending stash tok now).2 tok now').1 = none := by
  have e₁ : consumePending stash tok now = (some e, aremove stash tok) := by
    unfold consumePending
    rw [h]
  refine ⟨by rw [e₁], ?_, ?_⟩
  · rw [e₁]
    exact alookup_aremove_self stash tok
  · rw [e₁]
    unfold consumePending getLive
    rw [alookup_aremove_self]

/-- Witness for C6 on the concrete stash `stashW`. -/
theorem stash_consume_once_witness :
    (consumePending stashW "tok" 100).1 = some entryW ∧
    alookup (consumePending stashW "tok" 100).2 "tok" = none ∧
    (consumePending (consumePending stashW "tok" 100).2 "tok" 101).1 = none :=
  stash_consume_once stashW "tok" entryW 100 101 (by decide)

/-- **C7 counterexample.** The code's `put` (`setPending`) has no TTL
parameter: it always arms the fixed 15-minute `STASH_TTL_MS`. An entry
created at time 0 and consumed 200 ms later therefore yields the payload —
the modal submit completes and posts — not the session-expired outcome the
claim's 50 ms-TTL instance predicts. -/
theorem stash_ttl_counterexample :
    STASH_TTL_MS = 900000 ∧
    (consumePending stashW "tok" 200).1 = some entryW ∧
    (recommendModalSubmit stashW "tok" "alice" 200).1 = .posted := by
  decide

/-- **C7 (amended).** The stash TTL is the fixed `STASH_TTL_MS` (15 minutes =
900000 ms), not caller-chosen. An entry not refreshed since creation that is
looked up more than `STASH_TTL_MS` after creation has been removed by the
deferred cleanup armed at `put` time: consume finds nothing and the continue
handler answers session-expired. `refresh` resets the timer to a full TTL
window from the refresh instant and leaves the payload unchanged. -/
theorem stash_ttl_fixed :
    (∀ (stash : Stash) (tok fn url uid : String) (c now : Nat),
       c + STASH_TTL_MS < now →
       (consumePending (setPending stash tok fn url uid c) tok now).1 = none ∧
       (recommendContinue (setPending stash tok fn url uid c) tok uid now).1 =
         .sessionExpired) ∧
    (∀ (stash : Stash) (tok : String) (e : StashEntry) (now : Nat),
       getLive stash tok now = some e →
       refreshPending stash tok now =
         (some { e with expiresAt := now + STASH_TTL_MS },
          aset stash tok { e with expiresAt := now + STASH_TTL_MS })) := by
  constructor
  · intro stash tok fn url uid c now h
    have hlate : ¬ now < c + STASH_TTL_MS := by omega
    have hdead : getLive (setPending stash tok fn url uid c) tok now = none := by
      unfold getLive setPending
      rw [alookup_aset_self]
      simp [hlate]
    have hrefresh : refreshPending (setPending stash tok fn url uid c) tok now =
        (none, setPending stash tok fn url uid c) := by
      unfold refreshPending
      rw [hdead]
    constructor
    · unfold consumePending
      rw [hdead]
    · simp [recommendContinue, hrefresh]
  · intro stash tok e now h
    unfold refreshPending
    rw [h]

/-- Witness for C7 (amended): a 0-created entry is gone at 900001 ms, and a
refresh at 100 ms returns the same payload with a full window. -/
theorem stash_ttl_fixed_witness :
    (consumePending (setPending [] "tok" "proof.png" "https://cdn/p.png" "alice" 0)
        "tok" 900001).1 = none ∧
    refreshPending stashW "tok" 100 =
      (some { entryW with expiresAt := 100 + STASH_TTL_MS },
       aset stashW "tok" { entryW with expiresAt := 100 + STASH_TTL_MS }) := by
  refine ⟨(stash_ttl_fixed.1 [] "tok" "proof.png" "https://cdn/p.png" "alice" 0 900001
    (by decide)).1, ?_⟩
  exact stash_ttl_fixed.2 stashW "tok" entryW 100 (by decide)

/-- **C10.** A continue or modal-submit action by a user other than the stash
entry's owner is answered with the session-expired outcome — no modal is
shown and nothing is posted — even though the token exists and its TTL has
not elapsed. -/
theorem stash_owner_check (stash : Stash) (tok u : String) (e : StashEntry) (now : Nat)
    (hl : getLive stash tok now = some e) (hown : e.userId ≠ u) :
    (recommendContinue stash tok u now).1 = .sessionExpired ∧
    (recommendModalSubmit stash tok u now).1 = .sessionExpired := by
  constructor
  · have hr : refreshPending stash tok now =
        (some { e with expiresAt := now + STASH_TTL_MS },
         aset stash tok { e with expiresAt := now + STASH_TTL_MS }) := by
      unfold refreshPending
      rw [hl]
    simp [recommendContinue, hr, hown]
  · have hc : consumePending stash tok now = (some e, aremove stash tok) := by
      unfold consumePending
      rw [hl]
    simp [recommendModalSubmit, hc, hown]

/-- Witness for C10: `bob` acting on `alice`'s live entry gets the
session-expired answer from both handlers. -/
theorem stash_owner_check_witness :
    (recommendContinue stashW "tok" "bob" 100).1 = .sessionExpired ∧
    (recommendModalSubmit stashW "tok" "bob" 100).1 = .sessionExpired :=
  stash_owner_check stashW "tok" "bob" entryW 100 (by decide) (by decide)

end RecommendBot
